import Mathlib

/-!
Verification of the CyberGuard frontend stream consumer and related pure logic.

The definitions below are a shallow embedding of the TypeScript sources:
  - `useWebSocket` hook (file frontend/src/hooks/useWebSocket.ts, shipped
    appended to components/PlatformCards.tsx): WebSocket consumer with
    auto-reconnect, de-duplicated bounded event log.
  - `TweetCard` (components/TweetCard.tsx): the displayed content id is
    computed as `id || tweet_id`.
  - `Dashboard` (pages/Dashboard.tsx): connection-status text and error banner.
  - `CallbackPage` (pages/CallbackPage.tsx): OAuth callback localStorage writes.
  - DecisionEngine threshold mapping (backend; modelled from the spec, see
    `decideAction`).

JavaScript `string | undefined` / `string | null` values are modelled as
`Option String`; JS truthiness (`undefined`, `null` and `""` are falsy) is
modelled by `jsTruthy`.
-/

/-- A parsed incoming WebSocket JSON object. Fields that the TypeScript
declares as optional (or that may be absent at runtime in the duck-typed
JSON) are `Option String`. `typ` models the `type` field used to mark
control messages. -/
structure RawMsg where
  typ : Option String
  tweet_id : Option String
  id : Option String
  text : String
  platform : Option String
  deriving Repr, DecidableEq

/-- A wire message as seen by `onmessage`: either a payload that is not valid
JSON (`JSON.parse` throws) or a parsed object. -/
inductive WireMsg where
  | invalid : WireMsg
  | parsed : RawMsg → WireMsg
  deriving Repr, DecidableEq

/-- JS truthiness for an optional string: `undefined` / `null` and the empty
string are falsy. -/
def jsTruthy : Option String → Bool
  | none => false
  | some s => !(s = "")

/-- TweetCard.tsx line 48: `const tweetId = id || tweet_id;` — the content id
shown for an event is the generic `id` when truthy, otherwise `tweet_id`. -/
def contentId (m : RawMsg) : Option String :=
  if jsTruthy m.id then m.id else m.tweet_id

/-- State of the `useWebSocket` hook: the React state cells
(`isConnected`, `events`, `latestEvent`, `error`) plus the refs
(`shouldReconnect`, the pending reconnect timers with their delays,
and whether `ws.current` holds a socket). -/
structure ConsumerState where
  isConnected : Bool
  events : List RawMsg
  latestEvent : Option RawMsg
  error : Option String
  shouldReconnect : Bool
  pendingReconnects : List Nat
  hasSocket : Bool
  deriving Repr, DecidableEq

/-- useWebSocket.ts: `const RECONNECT_DELAY = 3000; // 3 seconds`. -/
def RECONNECT_DELAY : Nat := 3000

/-- useWebSocket.ts: `.slice(0, 100); // Keep last 100`. -/
def MAX_EVENTS : Nat := 100

/-- The de-duplication test in `onmessage`:
`prev.some(event => event.tweet_id === moderationEvent.tweet_id)`.
JS `===` on two `undefined` values is true, which `Option` equality models. -/
def isDuplicate (evs : List RawMsg) (m : RawMsg) : Bool :=
  evs.any (fun e => e.tweet_id = m.tweet_id)

/-- The `onmessage` handler body. A payload that fails `JSON.parse` is caught
and changes nothing. A parsed object with a `type` field equal to
`"connection"` is a control message and is ignored. Any other parsed object
is a data event: `setLatestEvent` runs unconditionally, then the event is
prepended to `events` unless an event with the same `tweet_id` is already
present, and the list is truncated to the newest `MAX_EVENTS` entries. -/
def handleMessage (s : ConsumerState) : WireMsg → ConsumerState
  | .invalid => s
  | .parsed m =>
    if m.typ = some "connection" then s
    else
      let s1 := { s with latestEvent := some m }
      if isDuplicate s1.events m then s1
      else { s1 with events := (m :: s1.events).take MAX_EVENTS }

/-- External happenings the hook reacts to: the four socket callbacks, a
pending reconnect timer firing (which calls `connect()`), and the caller's
explicit `disconnect()` teardown. -/
inductive Step where
  | onopen : Step
  | onmessage : WireMsg → Step
  | onerror : Step
  | onclose : Step
  | timerFire : Step
  | disconnect : Step
  deriving Repr, DecidableEq

/-- One transition of the hook's state machine, read off the handlers in
useWebSocket.ts:
  - `onopen`: `setIsConnected(true); setError(null)`.
  - `onmessage`: `handleMessage`.
  - `onerror`: `setError('WebSocket connection error')`.
  - `onclose`: `setIsConnected(false)`; if `shouldReconnect.current`,
    schedule one reconnect via `setTimeout(connect, RECONNECT_DELAY)`.
  - `timerFire`: a scheduled reconnect fires and `connect()` creates a new
    socket; with no timer pending nothing happens.
  - `disconnect`: `shouldReconnect.current = false`, `clearTimeout` on the
    pending reconnect, `ws.current.close()`, `ws.current = null`,
    `setIsConnected(false)`. -/
def step (s : ConsumerState) : Step → ConsumerState
  | .onopen => { s with isConnected := true, error := none }
  | .onmessage w => handleMessage s w
  | .onerror => { s with error := some "WebSocket connection error" }
  | .onclose =>
    let s2 := { s with isConnected := false }
    if s2.shouldReconnect then
      { s2 with pendingReconnects := s2.pendingReconnects ++ [RECONNECT_DELAY] }
    else s2
  | .timerFire =>
    match s.pendingReconnects with
    | [] => s
    | _ :: rest => { s with pendingReconnects := rest, hasSocket := true }
  | .disconnect =>
    { s with shouldReconnect := false, pendingReconnects := [],
             hasSocket := false, isConnected := false }

/-- Hook state right after mount: the effect sets `shouldReconnect.current =
true` and calls `connect()`, which creates the socket; all React state cells
start at their `useState` initial values. -/
def initialState : ConsumerState :=
  { isConnected := false, events := [], latestEvent := none, error := none,
    shouldReconnect := true, pendingReconnects := [], hasSocket := true }

/-- Run a sequence of steps. -/
def run (s : ConsumerState) (l : List Step) : ConsumerState :=
  l.foldl step s

/-- Dashboard.tsx lines 54-59: the header status text is
`isConnected ? 'Live' : 'Connecting...'`. -/
def statusText (isConnected : Bool) : String :=
  if isConnected then "Live" else "Connecting..."

/-- Dashboard.tsx lines 100-106: the error banner renders iff `error` is
truthy (`{error && (...)}`). -/
def errorBannerShown (e : Option String) : Bool :=
  jsTruthy e

/-- Outcome of the OAuth callback page: the localStorage writes performed,
the route navigated to, and the displayed status. -/
structure CallbackResult where
  writes : List (String × String)
  nav : String
  status : String
  deriving Repr, DecidableEq

/-- CallbackPage.tsx `processCallback`: if the `error` query parameter is
truthy, show an error and navigate to `/`; if any of `access_token`,
`user_id`, `username` is falsy, show an error and navigate to `/`; otherwise
write the three localStorage keys and navigate to `/dashboard`. -/
def processCallback (errorParam accessToken userId username : Option String) :
    CallbackResult :=
  if jsTruthy errorParam then
    { writes := [], nav := "/", status := "error" }
  else if !jsTruthy accessToken || !jsTruthy userId || !jsTruthy username then
    { writes := [], nav := "/", status := "error" }
  else
    { writes := [("twitter_access_token", accessToken.getD ""),
                 ("twitter_user_id", userId.getD ""),
                 ("twitter_username", username.getD "")],
      nav := "/dashboard", status := "success" }

/-- The three moderation actions of the decision pipeline. -/
inductive ModAction where
  | ignore : ModAction
  | flag : ModAction
  | delete : ModAction
  deriving Repr, DecidableEq

/-- Modelled from the spec: the backend DecisionEngine implementation is not
shipped under the available sources (only the README and deployment guides
reference `DELETE_THRESHOLD` and `FLAG_THRESHOLD`). Following section 4.3 of
the spec and the README (levels at or above `deleteThreshold` are deleted,
level equal to `flagThreshold` is flagged only, lower levels are ignored). -/
def decideAction (deleteThreshold flagThreshold L : Nat) : ModAction :=
  if deleteThreshold ≤ L then .delete
  else if L = flagThreshold then .flag
  else .ignore

/-- Default `DELETE_THRESHOLD=4` from the repository README. -/
def DELETE_THRESHOLD : Nat := 4

/-- Default `FLAG_THRESHOLD=3` from the repository README. -/
def FLAG_THRESHOLD : Nat := 3

/-- Concrete non-Twitter data event: content id carried in `id`. -/
def msgA : RawMsg :=
  { typ := none, tweet_id := none, id := some "discord-1",
    text := "hello", platform := some "discord" }

/-- Second non-Twitter data event with a distinct content id. -/
def msgB : RawMsg :=
  { typ := none, tweet_id := none, id := some "discord-2",
    text := "world", platform := some "discord" }

/-- Concrete control message as sent by the hub on connect. -/
def ctrlMsg : RawMsg :=
  { typ := some "connection", tweet_id := none, id := none,
    text := "Connected to moderation stream", platform := none }

/-- The message handler never touches `isConnected`. -/
lemma handleMessage_isConnected (s : ConsumerState) (w : WireMsg) :
    (handleMessage s w).isConnected = s.isConnected := by
  cases w with
  | invalid => rfl
  | parsed m =>
    simp only [handleMessage]
    split
    · rfl
    · split <;> rfl

/-- The message handler never touches `error`. -/
lemma handleMessage_error (s : ConsumerState) (w : WireMsg) :
    (handleMessage s w).error = s.error := by
  cases w with
  | invalid => rfl
  | parsed m =>
    simp only [handleMessage]
    split
    · rfl
    · split <;> rfl

/-- The message handler never touches `shouldReconnect`. -/
lemma handleMessage_shouldReconnect (s : ConsumerState) (w : WireMsg) :
    (handleMessage s w).shouldReconnect = s.shouldReconnect := by
  cases w with
  | invalid => rfl
  | parsed m =>
    simp only [handleMessage]
    split
    · rfl
    · split <;> rfl

/-- The message handler never touches the reconnect timers. -/
lemma handleMessage_pendingReconnects (s : ConsumerState) (w : WireMsg) :
    (handleMessage s w).pendingReconnects = s.pendingReconnects := by
  cases w with
  | invalid => rfl
  | parsed m =>
    simp only [handleMessage]
    split
    · rfl
    · split <;> rfl

/-- Unfolding of `handleMessage` on a data message (no `"connection"` type
field): `latestEvent` is set unconditionally; the log gains the event at the
front unless an entry with the same `tweet_id` is present. -/
lemma handleMessage_data (s : ConsumerState) (m : RawMsg)
    (hm : ¬ m.typ = some "connection") :
    handleMessage s (.parsed m) =
      { s with latestEvent := some m,
               events := if isDuplicate s.events m then s.events
                         else (m :: s.events).take MAX_EVENTS } := by
  simp only [handleMessage, if_neg hm]
  split
  · simp_all
  · simp_all

/-- No step of the machine ever grows the event log beyond `MAX_EVENTS`. -/
lemma step_events_bound (s : ConsumerState) (st : Step)
    (h : s.events.length ≤ MAX_EVENTS) :
    (step s st).events.length ≤ MAX_EVENTS := by
  cases st with
  | onopen => exact h
  | onerror => exact h
  | onclose =>
    simp only [step]
    split <;> exact h
  | timerFire =>
    simp only [step]
    split <;> simp_all
  | disconnect => exact h
  | onmessage w =>
    cases w with
    | invalid => exact h
    | parsed m =>
      by_cases hm : m.typ = some "connection"
      · simp only [step, handleMessage, if_pos hm]
        exact h
      · rw [show step s (.onmessage (.parsed m)) = handleMessage s (.parsed m) from rfl,
            handleMessage_data s m hm]
        split

        · exact h
        · simp

/-- Steps other than teardown leave `shouldReconnect` unchanged. -/
lemma step_shouldReconnect (s : ConsumerState) (st : Step)
    (h : st ≠ Step.disconnect) :
    (step s st).shouldReconnect = s.shouldReconnect := by
  cases st with
  | onopen => rfl
  | onerror => rfl
  | onclose =>
    simp only [step]
    split <;> rfl
  | timerFire =>
    simp only [step]
    split <;> rfl
  | disconnect => exact absurd rfl h
  | onmessage w => exact handleMessage_shouldReconnect s w

/-- Once torn down — `shouldReconnect` cleared and no timer pending — every
further step keeps `shouldReconnect` cleared and the timer set empty. -/
lemma tornDown_invariant (l : List Step) :
    ∀ s : ConsumerState, s.shouldReconnect = false → s.pendingReconnects = [] →
      (run s l).shouldReconnect = false ∧ (run s l).pendingReconnects = [] := by
  induction l with
  | nil => exact fun s h1 h2 => ⟨h1, h2⟩
  | cons st rest ih =>
    intro s h1 h2
    have hstep : (step s st).shouldReconnect = false ∧
        (step s st).pendingReconnects = [] := by
      cases st with
      | onopen => exact ⟨h1, h2⟩
      | onerror => exact ⟨h1, h2⟩
      | onclose =>
        simp only [step]
        rw [if_neg (by simp [h1])]
        exact ⟨h1, h2⟩
      | timerFire =>
        rw [show step s Step.timerFire = s from by simp [step, h2]]
        exact ⟨h1, h2⟩
      | disconnect => exact ⟨rfl, rfl⟩
      | onmessage w =>
        rw [show step s (.onmessage w) = handleMessage s w from rfl,
            handleMessage_shouldReconnect, handleMessage_pendingReconnects]
        exact ⟨h1, h2⟩
    exact ih (step s st) hstep.1 hstep.2

/-- Claim C1 counterexample: the de-duplication window is NOT keyed by the
content id. `msgA` and `msgB` are two non-Twitter data events with distinct
content ids (`discord-1` vs `discord-2`, carried in `id` with `tweet_id`
absent), yet after both arrive the log holds only `msgA`: the dedup test
compares `tweet_id` alone, `undefined === undefined` holds, and `msgB` is
dropped — so it is false that for every pair of distinct content ids both
events are retained. -/
theorem c1_dedup_counterexample :
    contentId msgA ≠ contentId msgB ∧
    (handleMessage (handleMessage initialState (.parsed msgA))
      (.parsed msgB)).events = [msgA] ∧
    msgB ∉ (handleMessage (handleMessage initialState (.parsed msgA))
      (.parsed msgB)).events := by
  refine ⟨by decide, by decide, by decide⟩

/-- Claim C1 (amended): the de-duplication window is keyed by the `tweet_id`
field alone — a data message is prepended to the log iff no event with the
same `tweet_id` (including the case where both are absent) is already
present; events with distinct content ids but equal `tweet_id` fields are
not both retained. -/
theorem c1_dedup_keyed_by_tweet_id (s : ConsumerState) (m : RawMsg)
    (hm : ¬ m.typ = some "connection") :
    (handleMessage s (.parsed m)).events =
      (if s.events.any (fun e => e.tweet_id = m.tweet_id) then s.events
       else (m :: s.events).take MAX_EVENTS) := by
  rw [handleMessage_data s m hm]
  rfl

/-- Claim C1 witness: instantiation of the amended theorem on an empty log
(the event is prepended) and on a log already holding an event with the same
`tweet_id` (the event is dropped). -/
theorem c1_dedup_keyed_by_tweet_id_witness :
    (handleMessage initialState (.parsed msgA)).events = [msgA] ∧
    (handleMessage { initialState with events := [msgA] }
      (.parsed msgB)).events = [msgA] := by
  constructor
  · exact (c1_dedup_keyed_by_tweet_id initialState msgA (by decide)).trans (by decide)
  · exact (c1_dedup_keyed_by_tweet_id { initialState with events := [msgA] }
      msgB (by decide)).trans (by decide)

/-- Claim C6: a parsed message whose `type` field equals `"connection"` is a
control message and leaves the whole consumer state — in particular the
event log and the exposed latest event — unchanged, while a parsed message
without such a field is handled as a data event (it becomes the exposed
latest event). -/
theorem c6_control_messages_ignored (s : ConsumerState) (m : RawMsg) :
    (m.typ = some "connection" → handleMessage s (.parsed m) = s) ∧
    (¬ m.typ = some "connection" →
      (handleMessage s (.parsed m)).latestEvent = some m) := by
  constructor
  · intro h
    simp [handleMessage, h]
  · intro h
    rw [handleMessage_data s m h]

/-- Claim C6 witness: the hub's connect-control message leaves the initial
state untouched, and a data message becomes the latest event. -/
theorem c6_control_messages_ignored_witness :
    handleMessage initialState (.parsed ctrlMsg) = initialState ∧
    (handleMessage initialState (.parsed msgA)).latestEvent = some msgA :=
  ⟨(c6_control_messages_ignored initialState ctrlMsg).1 rfl,
   (c6_control_messages_ignored initialState msgA).2 (by decide)⟩

/-- Claim C8: for every successfully parsed data message the exposed latest
event is updated to that message, even when the message is rejected from the
event log as a duplicate (same `tweet_id` already present) — de-duplication
applies only to the log. -/
theorem c8_latest_event_updated_even_on_duplicate (s : ConsumerState)
    (m : RawMsg) (hm : ¬ m.typ = some "connection") :
    (handleMessage s (.parsed m)).latestEvent = some m ∧
    (isDuplicate s.events m = true →
      (handleMessage s (.parsed m)).events = s.events) := by
  rw [handleMessage_data s m hm]
  exact ⟨rfl, fun h => by simp [h]⟩

/-- Claim C8 witness: replaying `msgA` into a log that already holds it
refreshes the latest event while the log stays unchanged. -/
theorem c8_latest_event_updated_even_on_duplicate_witness :
    (handleMessage { initialState with events := [msgA] }
      (.parsed msgA)).latestEvent = some msgA ∧
    (handleMessage { initialState with events := [msgA] }
      (.parsed msgA)).events = [msgA] :=
  ⟨(c8_latest_event_updated_even_on_duplicate
      { initialState with events := [msgA] } msgA (by decide)).1,
   (c8_latest_event_updated_even_on_duplicate
      { initialState with events := [msgA] } msgA (by decide)).2 (by decide)⟩

/-- Claim C10: a payload that is not valid JSON is caught by the handler's
try/catch and changes nothing at all — the event log, the latest event, the
connectivity flag, the error value and the socket are exactly as before. -/
theorem c10_invalid_json_no_effect (s : ConsumerState) :
    step s (.onmessage .invalid) = s :=
  rfl

/-- Claim C2: on every transport close not preceded by explicit teardown
(`shouldReconnect` still set, which holds along any trace from mount that
contains no `disconnect` step), the consumer clears its connectivity flag
and schedules exactly one new reconnect timer, carrying the fixed delay
`RECONNECT_DELAY = 3000` milliseconds. -/
theorem c2_reconnect_on_close :
    RECONNECT_DELAY = 3000 ∧
    (∀ s : ConsumerState, s.shouldReconnect = true →
      (step s Step.onclose).isConnected = false ∧
      (step s Step.onclose).pendingReconnects =
        s.pendingReconnects ++ [RECONNECT_DELAY]) ∧
    (∀ l : List Step, Step.disconnect ∉ l →
      (run initialState l).shouldReconnect = true) := by
  refine ⟨rfl, fun s hs => ?_, fun l hl => ?_⟩
  · simp only [step]
    rw [if_pos hs]
    exact ⟨rfl, rfl⟩
  · have key : ∀ l2 : List Step, Step.disconnect ∉ l2 →
        ∀ s : ConsumerState, s.shouldReconnect = true →
          (run s l2).shouldReconnect = true := by
      intro l2
      induction l2 with
      | nil => exact fun _ s hs => hs
      | cons st rest ih =>
        intro hmem s hs
        have hne : st ≠ Step.disconnect := fun h => hmem (h ▸ List.mem_cons_self st rest)
        have : (step s st).shouldReconnect = true :=
          (step_shouldReconnect s st hne).trans hs
        exact ih (fun h => hmem (List.mem_cons_of_mem st h)) (step s st) this
    exact key l hl initialState rfl

/-- Claim C2 witness: closing the freshly mounted consumer's transport flags
it disconnected and schedules one reconnect timer of 3000 ms; a trace of
socket activity without teardown leaves `shouldReconnect` set. -/
theorem c2_reconnect_on_close_witness :
    (step initialState Step.onclose).isConnected = false ∧
    (step initialState Step.onclose).pendingReconnects = [3000] ∧
    (run initialState [Step.onclose, Step.timerFire]).shouldReconnect = true := by
  have h := c2_reconnect_on_close.2.1 initialState rfl
  have h2 := c2_reconnect_on_close.2.2 [Step.onclose, Step.timerFire] (by decide)
  exact ⟨h.1, h.2.trans (by decide), h2⟩

/-- Claim C3: explicit teardown empties the set of scheduled reconnect
timers, closes and drops the active transport, clears the connectivity flag,
and from then on — whatever steps follow, including close or error events
delivered by the old socket — the set of scheduled reconnect timers stays
empty. -/
theorem c3_teardown_never_reconnects (s : ConsumerState) (l : List Step) :
    (step s Step.disconnect).pendingReconnects = [] ∧
    (step s Step.disconnect).hasSocket = false ∧
    (step s Step.disconnect).isConnected = false ∧
    (run (step s Step.disconnect) l).pendingReconnects = [] :=
  ⟨rfl, rfl, rfl, (tornDown_invariant l (step s Step.disconnect) rfl rfl).2⟩

/-- Claim C4: the event log invariants. First, along every trace from mount
the log never holds more than `MAX_EVENTS = 100` events. Second, an accepted
data event (not a control message, no duplicate `tweet_id` in the log) is
prepended at the front of a within-capacity log, and when the log is exactly
at capacity the oldest entry — the one at the back — is evicted. -/
theorem c4_bounded_ordered_log :
    MAX_EVENTS = 100 ∧
    (∀ l : List Step, (run initialState l).events.length ≤ MAX_EVENTS) ∧
    (∀ (s : ConsumerState) (m : RawMsg), ¬ m.typ = some "connection" →
      isDuplicate s.events m = false →
      s.events.length ≤ MAX_EVENTS →
      (handleMessage s (.parsed m)).events =
        m :: (if s.events.length = MAX_EVENTS then s.events.dropLast
              else s.events)) := by
  refine ⟨rfl, fun l => ?_, fun s m hm hdup hlen => ?_⟩
  · have key : ∀ l2 : List Step, ∀ s : ConsumerState,
        s.events.length ≤ MAX_EVENTS → (run s l2).events.length ≤ MAX_EVENTS := by
      intro l2
      induction l2 with
      | nil => exact fun s hs => hs
      | cons st rest ih =>
        exact fun s hs => ih (step s st) (step_events_bound s st hs)
    exact key l initialState (by decide)
  · rw [handleMessage_data s m hm]
    simp only [hdup, Bool.false_eq_true, if_false]
    by_cases hfull : s.events.length = MAX_EVENTS
    · rw [if_pos hfull]
      rw [show (m :: s.events).take MAX_EVENTS = m :: s.events.take (MAX_EVENTS - 1) from rfl]
      rw [List.dropLast_eq_take, hfull]
    · rw [if_neg hfull]
      exact List.take_of_length_le (by simp only [List.length_cons]; omega)

/-- Claim C4 witness: instantiation on the empty trace and on an accepted
first event — the log stays within capacity and the event lands at the
front. -/
theorem c4_bounded_ordered_log_witness :
    (run initialState []).events.length ≤ MAX_EVENTS ∧
    (handleMessage initialState (.parsed msgA)).events = [msgA] := by
  refine ⟨c4_bounded_ordered_log.2.1 [], ?_⟩
  exact (c4_bounded_ordered_log.2.2 initialState msgA (by decide) (by decide)
    (by decide)).trans (by decide)

/-- Claim C5: threshold mapping of the decision engine. With the defaults
`DELETE_THRESHOLD = 4` and `FLAG_THRESHOLD = 3`, and for every valid
configuration with `flagThreshold < deleteThreshold`, the action is `delete`
iff the severity level reaches `deleteThreshold`, `flag` iff it equals
`flagThreshold`, and `ignore` in every other case. -/
theorem c5_threshold_mapping :
    FLAG_THRESHOLD < DELETE_THRESHOLD ∧
    DELETE_THRESHOLD = 4 ∧ FLAG_THRESHOLD = 3 ∧
    (∀ dt ft L : Nat, ft < dt →
      ((decideAction dt ft L = ModAction.delete ↔ dt ≤ L) ∧
       (decideAction dt ft L = ModAction.flag ↔ L = ft) ∧
       (decideAction dt ft L = ModAction.ignore ↔ (L < dt ∧ ¬ L = ft)))) := by
  refine ⟨by decide, rfl, rfl, fun dt ft L h => ?_⟩
  by_cases h1 : dt ≤ L
  · rw [show decideAction dt ft L = ModAction.delete from by
        unfold decideAction; rw [if_pos h1]]
    exact ⟨by simp [h1], by simp; omega, by simp; omega⟩
  · by_cases h2 : L = ft
    · rw [show decideAction dt ft L = ModAction.flag from by
        unfold decideAction; rw [if_neg h1, if_pos h2]]
      exact ⟨by simp; omega, by simp [h2], by simp; omega⟩
    · rw [show decideAction dt ft L = ModAction.ignore from by
        unfold decideAction; rw [if_neg h1, if_neg h2]]
      exact ⟨by simp; omega, by simp; omega, by simp; omega⟩

/-- Claim C5 witness: at the default thresholds, level 4 is deleted, level 3
is flagged, level 1 is ignored. -/
theorem c5_threshold_mapping_witness :
    decideAction 4 3 4 = ModAction.delete ∧
    decideAction 4 3 3 = ModAction.flag ∧
    decideAction 4 3 1 = ModAction.ignore := by
  have h := c5_threshold_mapping.2.2.2
  exact ⟨(h 4 3 4 (by decide)).1.mpr (by decide),
         (h 4 3 3 (by decide)).2.1.mpr (by decide),
         (h 4 3 1 (by decide)).2.2.mpr (by decide)⟩

/-- Claim C7: the dashboard header shows `Live` exactly when the connectivity
flag is set and `Connecting...` otherwise; a transport error stores a
non-null error string which the banner renders; a subsequent successful
(re)open clears the error to null (banner hidden) and sets the flag — with
no user intervention. -/
theorem c7_dashboard_status :
    (∀ b : Bool, (statusText b = "Live" ↔ b = true) ∧
      (statusText b = "Connecting..." ↔ b = false)) ∧
    (∀ s : ConsumerState,
      (step s Step.onerror).error = some "WebSocket connection error" ∧
      errorBannerShown (step s Step.onerror).error = true ∧
      (step s Step.onopen).error = none ∧
      errorBannerShown (step s Step.onopen).error = false ∧
      (step s Step.onopen).isConnected = true) := by
  refine ⟨fun b => ?_, fun s =>
    ⟨rfl, show errorBannerShown (some "WebSocket connection error") = true from
      by decide, rfl, rfl, rfl⟩⟩
  cases b
  · exact ⟨by decide, by decide⟩
  · exact ⟨by decide, by decide⟩

/-- Claim C9 counterexample: a callback URL that carries an `error` parameter
with an empty value (`?error=`) together with all three credentials still
writes the three localStorage keys — JS truthiness treats the empty string
as falsy, so the claim's "no `error` parameter" condition is not what the
code tests. -/
theorem c9_callback_counterexample :
    (some "" : Option String) ≠ none ∧
    (processCallback (some "") (some "tok") (some "42") (some "alice")).writes =
      [("twitter_access_token", "tok"), ("twitter_user_id", "42"),
       ("twitter_username", "alice")] :=
  ⟨by decide, by decide⟩

/-- Claim C9 (amended): the callback stores credentials all-or-nothing — the
three localStorage keys are written iff the `error` parameter is absent or
empty and all three of `access_token`, `user_id`, `username` are present and
non-empty; in every other case no key is written and the user is redirected
to the login route `/`. -/
theorem c9_callback_all_or_nothing (e a u n : Option String) :
    ((processCallback e a u n).writes ≠ [] ↔
      (jsTruthy e = false ∧ jsTruthy a = true ∧ jsTruthy u = true ∧
       jsTruthy n = true)) ∧
    ((processCallback e a u n).writes = [] →
      (processCallback e a u n).nav = "/") ∧
    (jsTruthy e = false → jsTruthy a = true → jsTruthy u = true →
      jsTruthy n = true →
      (processCallback e a u n).writes =
        [("twitter_access_token", a.getD ""), ("twitter_user_id", u.getD ""),
         ("twitter_username", n.getD "")] ∧
      (processCallback e a u n).nav = "/dashboard") := by
  cases he : jsTruthy e <;> cases ha : jsTruthy a <;> cases hu : jsTruthy u <;>
    cases hn : jsTruthy n <;> simp [processCallback, he, ha, hu, hn]

/-- Claim C9 witness: a clean callback with all three credentials writes
exactly the three keys and navigates to the dashboard; a callback carrying a
non-empty error writes nothing and navigates back to the login route. -/
theorem c9_callback_all_or_nothing_witness :
    (processCallback none (some "tok") (some "42") (some "alice")).writes =
      [("twitter_access_token", "tok"), ("twitter_user_id", "42"),
       ("twitter_username", "alice")] ∧
    (processCallback none (some "tok") (some "42") (some "alice")).nav =
      "/dashboard" ∧
    (processCallback (some "denied") (some "x") (some "y") (some "z")).nav =
      "/" := by
  have h := (c9_callback_all_or_nothing none (some "tok") (some "42")
    (some "alice")).2.2 (by decide) (by decide) (by decide) (by decide)
  have h2 := (c9_callback_all_or_nothing (some "denied") (some "x") (some "y")
    (some "z")).2.1 (by decide)
  exact ⟨h.1, h.2, h2⟩
